import Mathlib

/-!
Verification development for the MolPic repository (molecule image
generator).  The Python sources `src/molpic/core.py`, `src/molpic/cli.py`,
`src/molpic/resolve.py` and `app_streamlit.py` are shallowly embedded
below: pure string manipulation is translated directly, calls into the
external RDKit / PubChem toolkits are abstracted as oracle functions
bundled in a `Toolkit` record, and file-system effects (directory
creation, file writes) are tracked explicitly in an `Effects` record.
-/

namespace MolPic

/-! ## Python string primitives -/

/-- Characters treated as whitespace by CPython `str.strip` (ASCII part). -/
def pyIsSpace (c : Char) : Bool :=
  c = ' ' || c = '\t' || c = '\n' || c = '\x0d' || c = '\x0b' || c = '\x0c'

/-- Drop leading Python whitespace from a character list. -/
def dropPyWs : List Char → List Char
  | [] => []
  | c :: cs => if pyIsSpace c then dropPyWs cs else c :: cs

/-- CPython `str.strip()` (ASCII whitespace). -/
def pyStrip (s : String) : String :=
  ⟨((dropPyWs s.data).reverse |> dropPyWs).reverse⟩

/-- CPython `str.lower()` (ASCII range; the strings it is applied to —
file extensions, the `order-by` option, legend sort keys — are compared
against ASCII literals). -/
def pyLower (s : String) : String := ⟨s.data.map Char.toLower⟩

/-- Decimal digit character for a single digit value (0..9). -/
def digitChar : Nat → Char
  | 0 => '0' | 1 => '1' | 2 => '2' | 3 => '3' | 4 => '4'
  | 5 => '5' | 6 => '6' | 7 => '7' | 8 => '8' | 9 => '9'
  | _ => '*'

/-- Fuel-driven decimal printer (structural recursion so that concrete
instances evaluate inside the kernel); `fuel` bounds the digit count. -/
def natDigitsAux : Nat → Nat → List Char
  | 0, _ => []
  | fuel + 1, n =>
    if n < 10 then [digitChar n]
    else natDigitsAux fuel (n / 10) ++ [digitChar (n % 10)]

/-- Decimal digit characters of a natural number, most significant first
(the way CPython formats a non-negative `int`). -/
def natDigits (n : Nat) : List Char := natDigitsAux (n + 1) n

/-- CPython `str(n)` / `f"{n}"` for a non-negative `int`. -/
def natStr (n : Nat) : String := ⟨natDigits n⟩

/-- Numeric value of a decimal digit character. -/
def digitVal (c : Char) : Nat := c.toNat - 48

/-- Parse a list of decimal digit characters (what `int(...)` does to the
digit group captured by the regexes in `core.py`). -/
def natFromDigits (ds : List Char) : Nat :=
  ds.foldl (fun a c => a * 10 + digitVal c) 0

/-- CPython format `f"{n:0wd}"`: decimal, zero-padded on the left to width
`w` (longer numbers are not truncated). -/
def zfill (w n : Nat) : String :=
  ⟨List.replicate (w - (natDigits n).length) '0' ++ natDigits n⟩

/-- Split a character list on a separator character (CPython-style:
`split("/")`, empty parts preserved). -/
def splitOnChar (sep : Char) : List Char → List (List Char)
  | [] => [[]]
  | c :: cs =>
    let r := splitOnChar sep cs
    if c = sep then [] :: r
    else
      match r with
      | [] => [[c]]
      | h :: t => (c :: h) :: t

/-- Fuel-driven body of `str.replace` (structural recursion; the fuel is
the input length, and every step consumes at least one character). -/
def pyReplaceAux (old new : List Char) : Nat → List Char → List Char
  | _, [] => []
  | 0, s => s
  | fuel + 1, c :: cs =>
    if old.isPrefixOf (c :: cs) then
      new ++ pyReplaceAux old new fuel (cs.drop (old.length - 1))
    else c :: pyReplaceAux old new fuel cs

/-- CPython `str.replace(old, new)`: leftmost, non-overlapping.  (An empty
pattern is returned unchanged; the sources only replace single-character
patterns.) -/
def pyReplaceL (old new s : List Char) : List Char :=
  if old.isEmpty then s else pyReplaceAux old new s.length s

/-! ## Path helpers (`pathlib.PurePath`) -/

/-- Whether the path string is absolute (starts with a slash). -/
def startsSlash (p : String) : Bool :=
  match p.data with
  | '/' :: _ => true
  | _ => false

/-- `pathlib.Path(p).name`: the final path component (trailing slashes and
empty components are dropped by pathlib's normalization). -/
def pathName (p : String) : String :=
  ⟨((splitOnChar '/' p.data).filter (fun c => ¬c.isEmpty)).getLastD []⟩

/-- `pathlib.Path(p).suffix`: the extension of the final component, i.e.
`name[i:]` for `i = name.rfind('.')` when `0 < i < len(name) - 1`,
else the empty string.  (Implementation transcribed from `pathlib`.) -/
def pathSuffix (p : String) : String :=
  let name := (pathName p).data
  match (name.reverse.findIdx? (fun c => c = '.')) with
  | none => ""
  | some rj =>
    -- index of the last '.' from the front
    let i := name.length - 1 - rj
    if 0 < i ∧ i < name.length - 1 then ⟨name.drop i⟩ else ""

/-- `pathlib.Path(p).parent` rendered back to a string ("." when the path
has a single component). -/
def parentDir (p : String) : String :=
  let comps := (splitOnChar '/' p.data).filter (fun c => ¬c.isEmpty)
  let par := comps.dropLast
  if par.isEmpty then (if startsSlash p then "/" else ".")
  else (if startsSlash p then "/" else "")
    ++ String.intercalate "/" (par.map (fun l => (⟨l⟩ : String)))

/-! ## Classifier (`cli.py:_is_probably_smiles`, `app_streamlit.py`) -/

/-- The fixed character set from `_is_probably_smiles` — hash, equals,
parentheses, square brackets, at-sign, plus, backslash, slash, hyphen and
the ten decimal digits (identical to the inline heuristic in
`app_streamlit.py`). -/
def smiles_chars : List Char :=
  ['#', '=', '(', ')', '[', ']', '@', '+', '\\', '/', '-',
   '0', '1', '2', '3', '4', '5', '6', '7', '8', '9']

/-- `cli.py`: `return any(c in smiles_chars for c in text)`. -/
def _is_probably_smiles (text : String) : Bool :=
  text.data.any (fun c => smiles_chars.contains c)

/-! ## Regex fragments used by `core.py:_inject_svg_title`

`re.search(r'width="(\d+)(px)?"', svg)` and the corresponding `height`
search, plus the two anchored header-stripping substitutions.  Leftmost
match semantics are modelled by a character-by-character scan. -/

/-- Strip an expected literal key from the front of a character list,
returning the remainder on success. -/
def stripKey : List Char → List Char → Option (List Char)
  | [], s => some s
  | _ :: _, [] => none
  | k :: ks, c :: cs => if c = k then stripKey ks cs else none

/-- Try to match `key ++ digits ++ (px)? ++ '"'` at the current position
(the body of the `width="(\d+)(px)?"` regex, `key` being the part up to
and including the opening quote); return the captured number. -/
def attrNumAt (key s : List Char) : Option Nat :=
  match stripKey key s with
  | none => none
  | some rest =>
    let ds := rest.takeWhile Char.isDigit
    let tail := rest.dropWhile Char.isDigit
    if ds.isEmpty then none
    else
      match tail with
      | '"' :: _ => some (natFromDigits ds)
      | 'p' :: 'x' :: '"' :: _ => some (natFromDigits ds)
      | _ => none

/-- `re.search`: scan left to right for the first position where the
attribute pattern matches; return the captured number. -/
def searchNumAttr (key : List Char) : List Char → Option Nat
  | [] => none
  | c :: cs =>
    match attrNumAt key (c :: cs) with
    | some n => some n
    | none => searchNumAttr key cs

/-- Whether `key` and `s` disagree at some index below both lengths
(which makes any attribute match starting at `s ++ _` impossible). -/
def mismatchWithin : List Char → List Char → Bool
  | k :: ks, c :: cs => if c = k then mismatchWithin ks cs else true
  | _, _ => false

/-- `mismatchWithin key` holds of every non-empty suffix of the list. -/
def allSuffixMismatch (key : List Char) : List Char → Bool
  | [] => true
  | c :: cs => mismatchWithin key (c :: cs) && allSuffixMismatch key cs

/-- Key of the `width="(\d+)(px)?"` pattern. -/
def widthKeyL : List Char := "width=\"".data

/-- Key of the `height="(\d+)(px)?"` pattern. -/
def heightKeyL : List Char := "height=\"".data

/-- Substring test (`svg.find("<svg") != -1`). -/
def hasSubL (needle : List Char) : List Char → Bool
  | [] => needle.isEmpty
  | c :: cs => needle.isPrefixOf (c :: cs) || hasSubL needle cs

/-- Scan for the `\?>` that closes an XML declaration: the `[^>]*\?>`
part of the pattern succeeds exactly when the first `>` of the input is
preceded by `?`; returns the characters after that `?>`. -/
def scanPI : List Char → Option (List Char)
  | '?' :: '>' :: rest => some rest
  | '>' :: _ => none
  | [] => none
  | _ :: rest => scanPI rest

/-- Scan for the `>` closing a DOCTYPE (`[^>]*>`): returns the characters
after the first `>`. -/
def scanGT : List Char → Option (List Char)
  | '>' :: rest => some rest
  | [] => none
  | _ :: rest => scanGT rest

/-- `re.sub(r"^\s*<\?xml[^>]*\?>\s*", "", inner)`: drop a leading XML
declaration (and surrounding whitespace) if present, otherwise return the
input unchanged. -/
def stripXmlHdr (s : List Char) : List Char :=
  let t := dropPyWs s
  if ("<?xml".data).isPrefixOf t then
    match scanPI (t.drop 5) with
    | some rest => dropPyWs rest
    | none => s
  else s

/-- `re.sub(r"^\s*<!DOCTYPE[^>]*>\s*", "", inner)`: drop a leading
DOCTYPE declaration (and surrounding whitespace) if present. -/
def stripDoctypeHdr (s : List Char) : List Char :=
  let t := dropPyWs s
  if ("<!DOCTYPE".data).isPrefixOf t then
    match scanGT (t.drop 9) with
    | some rest => dropPyWs rest
    | none => s
  else s

/-- CPython `str(w/2)` for an `int` `w`: true division gives a float that
prints as `N.0` or `N.5` (exact for every size that fits a double). -/
def pyHalfStr (w : Nat) : String :=
  if w % 2 = 0 then natStr (w / 2) ++ ".0" else natStr (w / 2) ++ ".5"

/-- CPython `str(e*0.65)` for the small `extra_top_px` values used here
(e.g. `70*0.65` prints as `45.5`), rendered via the exact rational
`e*65/100`. -/
def pyMulStr65 (e : Nat) : String :=
  let q := e * 65
  let ip := natStr (q / 100)
  let r := q % 100
  if r = 0 then ip ++ ".0"
  else if r % 10 = 0 then ip ++ "." ++ natStr (r / 10)
  else if r < 10 then ip ++ ".0" ++ natStr r
  else ip ++ "." ++ natStr r

/-- `core.py:_inject_svg_title`: wrap the RDKit SVG in a new SVG with
extra top margin and a title text.  Returns the input unchanged when the
trimmed title is empty or when no `<svg` tag is found; otherwise parses
`width`/`height` (falling back to 1500 and 1000), strips an optional
leading XML declaration and DOCTYPE from the inner markup, and emits the
wrapping markup of the Python f-string verbatim. -/
def _inject_svg_title (svg title : String) (extra_top_px : Nat := 70) : String :=
  if pyStrip title = "" then svg
  else if hasSubL "<svg".data svg.data = false then svg
  else
    let w := (searchNumAttr widthKeyL svg.data).getD 1500
    let h := (searchNumAttr heightKeyL svg.data).getD 1000
    let new_h := h + extra_top_px
    let inner : List Char := stripDoctypeHdr (stripXmlHdr svg.data)
    "<svg xmlns=\"http://www.w3.org/2000/svg\" width=\"" ++ natStr w
      ++ "\" height=\"" ++ natStr new_h
      ++ "\" viewBox=\"0 0 " ++ natStr w ++ " " ++ natStr new_h
      ++ "\">\n  <text x=\"" ++ pyHalfStr w
      ++ "\" y=\"" ++ pyMulStr65 extra_top_px
      ++ "\" text-anchor=\"middle\" font-size=\"28\" font-family=\"Arial\">"
      ++ title
      ++ "</text>\n  <g transform=\"translate(0," ++ natStr extra_top_px
      ++ ")\">\n    " ++ (⟨inner⟩ : String)
      ++ "\n  </g>\n</svg>\n"

/-! ## Data model (`core.py`, `resolve.py`, batch report rows) -/

/-- `core.py:RenderResult` dataclass. -/
structure RenderResult where
  smiles : Option String
  out_path : Option String
  ok : Bool
  message : String
  deriving DecidableEq, Repr

/-- `resolve.py:ResolveResult` dataclass. -/
structure ResolveResult where
  query : String
  smiles : Option String
  source : String
  pubchem_cid : Option Int
  message : String
  deriving DecidableEq, Repr

/-- A PubChem compound record as consumed by `resolve.py` (the
`canonical_smiles` / `isomeric_smiles` / `cid` attributes; a missing or
null attribute is `none`, an empty string is falsy to Python's `or`). -/
structure Compound where
  canonical_smiles : Option String
  isomeric_smiles : Option String
  cid : Option Int
  deriving DecidableEq, Repr

/-- One row of the batch report (`cli.py:batch`).  The Python code appends
plain dicts; rows recorded before the render step carry only the `row`,
`ok` and `message` keys, so every other field is wrapped in an extra
`Option` marking whether the key is present at all (`out` and `cid` hold
present-but-null values as `some none`). -/
structure ReportRow where
  row : Nat
  query : Option String
  legend : Option String
  ok : Bool
  out : Option (Option String)
  source : Option String
  cid : Option (Option Int)
  message : String
  deriving DecidableEq, Repr

/-- A file written during a run: a raster image (with optional DPI
metadata), a text file (SVG markup or captions), or the tabular report. -/
inductive FileWrite (Img : Type) where
  | img (path : String) (image : Img) (dpi : Option Nat)
  | text (path : String) (content : String)
  | table (path : String) (rows : List ReportRow)
  deriving DecidableEq, Repr

/-- File-system effects of a call: directories created (`mkdir
parents=True exist_ok=True`) and files written, in order. -/
structure Effects (Img : Type) where
  dirs : List String
  writes : List (FileWrite Img)
  deriving DecidableEq, Repr

/-- No effects. -/
def noEff {Img : Type} : Effects Img := ⟨[], []⟩

/-- Sequential composition of effects. -/
def Effects.app {Img : Type} (a b : Effects Img) : Effects Img :=
  ⟨a.dirs ++ b.dirs, a.writes ++ b.writes⟩

/-- Oracle bundle for the external toolkits.  `Mol` is RDKit's molecular
graph type and `Img` its PIL image type, both abstract.  Fallible calls
(ones the Python wraps in `try`/`except`, or that may raise) return
`Except String`, the error being the exception's message. -/
structure Toolkit (Mol Img : Type) where
  /-- `Chem.MolFromSmiles` (returns `None` on parse failure). -/
  parse : String → Option Mol
  /-- `AllChem.Compute2DCoords` (mutates the mol in place; modelled as a
  transformation of the graph). -/
  compute2D : Mol → Mol
  /-- `Chem.RemoveHs(mol, sanitize=True)`; `none` models an exception. -/
  removeHs : Mol → Option Mol
  /-- `Draw.MolToImage(mol, size=size, legend=legend)`. -/
  molToImage : Mol → Nat × Nat → String → Except String Img
  /-- The `MolDraw2DSVG` pipeline of `render_molecule`: drawer creation
  with the given canvas size, the fixed draw options (with
  `clearBackground` set to the transparency flag), `DrawMolecule` with the
  legend, `FinishDrawing`, `GetDrawingText`. -/
  drawSvg : Mol → Nat × Nat → String → Bool → Except String String
  /-- `Draw.MolsToGridImage(..., useSVG=False)`: mols (None entries are
  placeholder cells), `molsPerRow`, `subImgSize`, `legends`. -/
  gridPng : List (Option Mol) → Nat → Nat × Nat → List String → Except String Img
  /-- `Draw.MolsToGridImage(..., useSVG=True)`. -/
  gridSvg : List (Option Mol) → Nat → Nat × Nat → List String → Except String String
  /-- `img.save(path, dpi=(d, d))`. -/
  savePngDpi : Img → String → Nat → Except String Unit
  /-- `img.save(path)` (the DPI-less fallback). -/
  savePng : Img → String → Except String Unit
  /-- `Path.write_text(content, encoding="utf-8")`. -/
  writeText : String → String → Except String Unit

/-! ## `core.py` renderers -/

/-- `core.py:_mol_from_smiles`: parse, unconditionally compute 2D
coordinates, then optionally try to strip explicit hydrogens, silently
keeping the original graph when that step raises. -/
def _mol_from_smiles {Mol Img : Type} (tk : Toolkit Mol Img)
    (smiles : String) (no_h : Bool := false) : Option Mol :=
  match tk.parse smiles with
  | none => none
  | some mol0 =>
    let mol := tk.compute2D mol0
    if no_h then
      match tk.removeHs mol with
      | some mol' => some mol'
      | none => some mol
    else some mol

/-- `core.py:render_molecule`, returning the `RenderResult` together with
the file-system effects of the call. -/
def render_molecule {Mol Img : Type} (tk : Toolkit Mol Img)
    (smiles : String) (out : String) (size : Nat × Nat := (900, 700))
    (legend : String := "") (transparent : Bool := true)
    (no_h : Bool := false) (png_dpi : Nat := 300) :
    RenderResult × Effects Img :=
  let s := pyStrip smiles
  if s = "" then (⟨none, none, false, "Empty SMILES provided."⟩, noEff)
  else
    match _mol_from_smiles tk s no_h with
    | none => (⟨some s, none, false, "RDKit could not parse the SMILES."⟩, noEff)
    | some mol =>
      let dirs := [parentDir out]
      let suffix := pyLower (pathSuffix out)
      if suffix ≠ ".png" ∧ suffix ≠ ".svg" then
        (⟨some s, none, false, "Output must end with .png or .svg"⟩, ⟨dirs, []⟩)
      else if suffix = ".png" then
        match tk.molToImage mol size legend with
        | .error e => (⟨some s, none, false, "Render error: " ++ e⟩, ⟨dirs, []⟩)
        | .ok img =>
          match tk.savePngDpi img out png_dpi with
          | .ok _ =>
            (⟨some s, some out, true, "OK"⟩, ⟨dirs, [.img out img (some png_dpi)]⟩)
          | .error _ =>
            match tk.savePng img out with
            | .ok _ => (⟨some s, some out, true, "OK"⟩, ⟨dirs, [.img out img none]⟩)
            | .error e => (⟨some s, none, false, "Render error: " ++ e⟩, ⟨dirs, []⟩)
      else
        match tk.drawSvg mol size legend transparent with
        | .error e => (⟨some s, none, false, "Render error: " ++ e⟩, ⟨dirs, []⟩)
        | .ok svg =>
          match tk.writeText out svg with
          | .ok _ => (⟨some s, some out, true, "OK"⟩, ⟨dirs, [.text out svg]⟩)
          | .error e => (⟨some s, none, false, "Render error: " ++ e⟩, ⟨dirs, []⟩)

/-- `core.py:render_grid`.  The `transparent` flag is accepted but — as in
the source, whose only use of it is an `if not transparent: pass` — never
applied to the drawing. -/
def render_grid {Mol Img : Type} (tk : Toolkit Mol Img)
    (smiles_list : List String) (out : String)
    (legends : Option (List String) := none)
    (grid : Nat × Nat := (2, 3)) (sub_img_size : Nat × Nat := (550, 450))
    (transparent : Bool := true) (no_h : Bool := false)
    (png_dpi : Nat := 300) (title : String := "") :
    RenderResult × Effects Img :=
  if smiles_list.isEmpty then
    (⟨none, none, false, "No molecules provided for grid rendering."⟩, noEff)
  else
    let used_legends :=
      match legends with
      | some l => if l.isEmpty then List.replicate smiles_list.length "" else l
      | none => List.replicate smiles_list.length ""
    let mols := smiles_list.map (fun s =>
      let ss := pyStrip s
      if ss = "" then none else _mol_from_smiles tk ss no_h)
    let cols := grid.2
    let dirs := [parentDir out]
    let suffix := pyLower (pathSuffix out)
    if suffix ≠ ".png" ∧ suffix ≠ ".svg" then
      (⟨none, none, false, "Grid output must end with .png or .svg"⟩, ⟨dirs, []⟩)
    else if suffix = ".png" then
      match tk.gridPng mols cols sub_img_size used_legends with
      | .error e => (⟨some "GRID", none, false, "Grid render error: " ++ e⟩, ⟨dirs, []⟩)
      | .ok img =>
        match tk.savePngDpi img out png_dpi with
        | .ok _ =>
          (⟨some "GRID", some out, true, "OK"⟩, ⟨dirs, [.img out img (some png_dpi)]⟩)
        | .error _ =>
          match tk.savePng img out with
          | .ok _ => (⟨some "GRID", some out, true, "OK"⟩, ⟨dirs, [.img out img none]⟩)
          | .error e =>
            (⟨some "GRID", none, false, "Grid render error: " ++ e⟩, ⟨dirs, []⟩)
    else
      match tk.gridSvg mols cols sub_img_size used_legends with
      | .error e => (⟨some "GRID", none, false, "Grid render error: " ++ e⟩, ⟨dirs, []⟩)
      | .ok svg0 =>
        let svg := _inject_svg_title svg0 (pyStrip title)
        match tk.writeText out svg with
        | .ok _ => (⟨some "GRID", some out, true, "OK"⟩, ⟨dirs, [.text out svg]⟩)
        | .error e =>
          (⟨some "GRID", none, false, "Grid render error: " ++ e⟩, ⟨dirs, []⟩)

/-! ## `resolve.py` -/

/-- Python's `a or b` on two optional strings (`None` and `""` are falsy):
`getattr(c, "canonical_smiles", None) or getattr(c, "isomeric_smiles", None)`. -/
def pyOrStr (a b : Option String) : Option String :=
  match a with
  | some s => if s = "" then b else some s
  | none => b

/-- Python truthiness test `not smiles` for an optional string. -/
def pyFalsyStrOpt : Option String → Bool
  | none => true
  | some s => s = ""

/-- `resolve.py:resolve_name_to_smiles`.  The PubChem client
(`pcp.get_compounds(q, namespace=..., as_dataframe=False)`) is abstracted
as `lookup query namespace`, returning the match list or the message of a
raised exception; both calls sit inside the function's `try` block. -/
def resolve_name_to_smiles
    (lookup : String → String → Except String (List Compound))
    (name : String) : ResolveResult :=
  let q := pyStrip name
  if q = "" then ⟨name, none, "none", none, "Empty name provided."⟩
  else
    match lookup q "name" with
    | .error e => ⟨q, none, "pubchem", none, "PubChem resolution error: " ++ e⟩
    | .ok cs0 =>
      match (if cs0.isEmpty then lookup q "query" else .ok cs0) with
      | .error e => ⟨q, none, "pubchem", none, "PubChem resolution error: " ++ e⟩
      | .ok cs =>
        match cs with
        | [] => ⟨q, none, "pubchem", none, "No PubChem match found."⟩
        | c :: _ =>
          let smiles := pyOrStr c.canonical_smiles c.isomeric_smiles
          let cid := c.cid
          if pyFalsyStrOpt smiles then
            ⟨q, none, "pubchem", cid, "Matched PubChem entry but no SMILES returned."⟩
          else ⟨q, smiles, "pubchem", cid, "OK"⟩

/-! ## `cli.py` batch driver -/

/-- `cli.py:_write_caption` file content: the semicolon-joined
`"index) legend"` items, prefixed by a title line when the trimmed title
is non-empty. -/
def _write_caption_text (title : String) (legends : List String) : String :=
  let items := String.intercalate "; "
    (legends.enum.map (fun p => natStr (p.1 + 1) ++ ") " ++ p.2))
  if pyStrip title = "" then "Compounds: " ++ items ++ "\n"
  else pyStrip title ++ "\nCompounds: " ++ items ++ "\n"

/-- One iteration of the row loop of `cli.py:batch`: the report entry, the
rendered item `(legend, smiles, out_file)` when the render succeeded, and
the file-system effects.  `cell` holds the row's `str(...)`-converted
smiles-column and name-column values. -/
def batchRow {Mol Img : Type} (tk : Toolkit Mol Img)
    (lookup : String → String → Except String (List Compound))
    (has_smiles has_name : Bool) (out_dir fmt : String) (no_h : Bool)
    (i : Nat) (cell : String × String) :
    ReportRow × Option (String × String × String) × Effects Img :=
  let raw_smiles := if has_smiles then pyStrip cell.1 else ""
  let raw_name := if has_name then pyStrip cell.2 else ""
  let query := if raw_smiles ≠ "" then raw_smiles else raw_name
  if query = "" then (⟨i, none, none, false, none, none, none, "empty"⟩, none, noEff)
  else
    let resolved : Except String (String × String × Option Int) :=
      if raw_smiles ≠ "" then .ok (raw_smiles, "input_smiles", none)
      else
        let rr := resolve_name_to_smiles lookup raw_name
        if pyFalsyStrOpt rr.smiles then .error rr.message
        else .ok (rr.smiles.getD "", rr.source, rr.pubchem_cid)
    match resolved with
    | .error msg => (⟨i, none, none, false, none, none, none, msg⟩, none, noEff)
    | .ok (smiles, source, cid) =>
      let legend := if raw_name ≠ "" then raw_name else query
      let safe_label : String :=
        ⟨(pyReplaceL "/".data "_".data (pyReplaceL " ".data "_".data legend.data)).take 80⟩
      let out_file := out_dir ++ "/" ++ zfill 4 i ++ "_" ++ safe_label ++ "." ++ fmt
      let step := render_molecule tk smiles out_file (900, 700) legend true no_h 300
      (⟨i, some query, some legend, step.1.ok, some step.1.out_path, some source,
         some cid, step.1.message⟩,
       if step.1.ok then some (legend, smiles, out_file) else none,
       step.2)

/-- The full row loop of `cli.py:batch` starting at row index `i`:
report entries, rendered items and accumulated effects, in order. -/
def batchRows {Mol Img : Type} (tk : Toolkit Mol Img)
    (lookup : String → String → Except String (List Compound))
    (has_smiles has_name : Bool) (out_dir fmt : String) (no_h : Bool) :
    Nat → List (String × String) →
    List ReportRow × List (String × String × String) × Effects Img
  | _, [] => ([], [], noEff)
  | i, cell :: rest =>
    let hd := batchRow tk lookup has_smiles has_name out_dir fmt no_h i cell
    let tl := batchRows tk lookup has_smiles has_name out_dir fmt no_h (i + 1) rest
    (hd.1 :: tl.1, hd.2.1.toList ++ tl.2.1, hd.2.2.app tl.2.2)

/-- One panel produced by the panel loop of `cli.py:batch`: output path,
title, the chunk of rendered items it tiles, and the `render_grid`
outcome with its effects (caption sidecar included when requested). -/
structure PanelOut (Img : Type) where
  out : String
  title : String
  cells : List (String × String × String)
  result : RenderResult
  eff : Effects Img
  deriving DecidableEq, Repr

/-- The `for start in range(0, len(items), capacity)` panel loop of
`cli.py:batch` with running panel index `idx`.  A zero capacity cannot
reach this loop (`_parse_grid` rejects non-positive rows/cols; Python's
`range` would raise) and is mapped to the empty output. -/
def panelLoop {Mol Img : Type} (tk : Toolkit Mol Img)
    (out_dir titlePfx fmt : String) (grid : Nat × Nat)
    (no_h captions : Bool) (capacity : Nat) :
    Nat → List (String × String × String) → List (PanelOut Img)
  | _, [] => []
  | idx, x :: xs =>
    match capacity with
    | 0 => []
    | c + 1 =>
      let chunk := (x :: xs).take (c + 1)
      let legends := chunk.map (fun t => t.1)
      let smiles_list := chunk.map (fun t => t.2.1)
      let panel_out := out_dir ++ "/panel_" ++ zfill 3 idx ++ "." ++ fmt
      let title := titlePfx ++ " " ++ zfill 3 idx
      let step := render_grid tk smiles_list panel_out (some legends) grid
        (550, 450) true no_h 300 title
      let cap_path := out_dir ++ "/panel_" ++ zfill 3 idx ++ "_caption.txt"
      let ceff : Effects Img :=
        if captions then
          ⟨[parentDir cap_path], [.text cap_path (_write_caption_text title legends)]⟩
        else noEff
      ⟨panel_out, title, chunk, step.1, step.2.app ceff⟩ ::
        panelLoop tk out_dir titlePfx fmt grid no_h captions (c + 1) (idx + 1)
          ((x :: xs).drop (c + 1))
  termination_by _ items => items.length
  decreasing_by simp [List.length_drop]; omega

/-- The panel phase of `cli.py:batch`: runs only when `make_panels` is set
and at least one item rendered; sorts a copy of the items by
lower-cased legend when `order_by` is `"name"` (Python's stable sort),
then chunks them into panels of `rows*cols` cells. -/
def batchPanels {Mol Img : Type} (tk : Toolkit Mol Img)
    (out_dir titlePfx fmt : String) (grid : Nat × Nat)
    (no_h captions make_panels : Bool) (order_by : String)
    (items : List (String × String × String)) : List (PanelOut Img) :=
  if make_panels ∧ ¬items.isEmpty then
    let items2 :=
      if pyLower order_by = "name" then
        items.mergeSort (fun a b => decide (pyLower a.1 ≤ pyLower b.1))
      else items
    panelLoop tk out_dir titlePfx fmt grid no_h captions (grid.1 * grid.2) 1 items2
  else []

/-- `cli.py:batch` end to end: `none` models the fatal exit when neither
the smiles column nor the name column exists; otherwise the report rows,
the panels, and all effects — output-directory creation, per-row writes,
the unconditional report write, and the panel writes, in program order. -/
def batch {Mol Img : Type} (tk : Toolkit Mol Img)
    (lookup : String → String → Except String (List Compound))
    (rows : List (String × String)) (has_smiles has_name : Bool)
    (out_dir fmt : String) (no_h make_panels : Bool) (grid : Nat × Nat)
    (titlePfx : String) (captions : Bool) (order_by : String) :
    Option (List ReportRow × List (PanelOut Img) × Effects Img) :=
  if ¬has_smiles ∧ ¬has_name then none
  else
    let step := batchRows tk lookup has_smiles has_name out_dir fmt no_h 0 rows
    let report := step.1
    let reportEff : Effects Img :=
      ⟨[], [.table (out_dir ++ "/molpic_report.csv") report]⟩
    let panels := batchPanels tk out_dir titlePfx fmt grid no_h captions
      make_panels order_by step.2.1
    let panelEff := panels.foldr (fun p acc => p.eff.app acc) noEff
    some (report, panels,
      (⟨[out_dir], []⟩ : Effects Img).app (step.2.2.app (reportEff.app panelEff)))

/-! ## Concrete toolkit instances used by the witness theorems -/

/-- The path a file write targets. -/
def FileWrite.path {Img : Type} : FileWrite Img → String
  | .img p _ _ => p
  | .text p _ => p
  | .table p _ => p

/-- A toolkit whose oracles all succeed (every structure parses, every
draw and save succeeds). -/
def tkU : Toolkit Unit Unit where
  parse _ := some ()
  compute2D := id
  removeHs _ := some ()
  molToImage _ _ _ := .ok ()
  drawSvg _ _ _ _ := .ok "<svg>mol</svg>"
  gridPng _ _ _ _ := .ok ()
  gridSvg _ _ _ _ := .ok "<svg>grid</svg>"
  savePngDpi _ _ _ := .ok ()
  savePng _ _ := .ok ()
  writeText _ _ := .ok ()

/-- Like `tkU` but the hydrogen-removal step raises. -/
def tkHF : Toolkit Unit Unit :=
  { tkU with removeHs := fun _ => none }

/-- A PubChem lookup that always returns zero matches. -/
def lk0 : String → String → Except String (List Compound) := fun _ _ => .ok []

/-- A PubChem lookup that always raises (transport fault). -/
def lkErr : String → String → Except String (List Compound) := fun _ _ => .error "boom"

/-! ## Theorems -/

/-- C1: the classifier returns true exactly when the input contains at
least one character from the fixed structural-character set — for every
string containing such a character it returns true, and for every string
containing none of them it returns false. -/
theorem C1_classifier_iff (text : String) :
    _is_probably_smiles text = true ↔ ∃ c ∈ text.data, c ∈ smiles_chars := by
  unfold _is_probably_smiles
  rw [List.any_eq_true]
  constructor
  · rintro ⟨c, hc, hmem⟩
    exact ⟨c, hc, List.elem_iff.mp hmem⟩
  · rintro ⟨c, hc, hmem⟩
    exact ⟨c, hc, List.elem_iff.mpr hmem⟩

/-- C2 counterexample: on an empty structure string the single-molecule
renderer's failure message is `"Empty SMILES provided."`, not the
`"Empty structure provided."` stated by the claim. -/
theorem C2_cex_message :
    (render_molecule tkU "" "molecule.svg").1.message = "Empty SMILES provided." ∧
    (render_molecule tkU "" "molecule.svg").1.message ≠ "Empty structure provided." := by
  constructor
  · rfl
  · decide

/-- C2 (amended): for every empty or whitespace-only structure string the
single-molecule renderer fails with message `"Empty SMILES provided."`,
absent structure string and absent output path, and neither a file nor a
directory is created. -/
theorem C2_empty_smiles {Mol Img : Type} (tk : Toolkit Mol Img)
    (smiles out : String) (size : Nat × Nat) (legend : String)
    (transparent no_h : Bool) (png_dpi : Nat)
    (h : pyStrip smiles = "") :
    render_molecule tk smiles out size legend transparent no_h png_dpi =
      (⟨none, none, false, "Empty SMILES provided."⟩, noEff) := by
  simp [render_molecule, h]

/-- Witness for C2 at a whitespace-only input. -/
theorem C2_empty_smiles_witness :
    pyStrip "   " = "" ∧
    render_molecule tkU "   " "molecule.svg" (900, 700) "" true false 300 =
      (⟨none, none, false, "Empty SMILES provided."⟩, noEff) :=
  ⟨by decide, C2_empty_smiles tkU "   " "molecule.svg" (900, 700) "" true false 300 (by decide)⟩

/-- When the toolkit parses a structure string, `_mol_from_smiles`
returns a molecular graph whatever the hydrogen flag is. -/
theorem mol_from_smiles_of_parse {Mol Img : Type} (tk : Toolkit Mol Img)
    (s : String) (no_h : Bool) (m : Mol) (hp : tk.parse s = some m) :
    ∃ m', _mol_from_smiles tk s no_h = some m' := by
  unfold _mol_from_smiles
  rw [hp]
  cases no_h <;> simp
  cases h : tk.removeHs (tk.compute2D m) <;> simp

/-- C3: for every parseable non-empty structure string and every output
path whose extension is (case-insensitively) neither `.png` nor `.svg`,
the single-molecule renderer fails with message
`"Output must end with .png or .svg"`, writes no file, and has created
exactly the output path's parent directory. -/
theorem C3_bad_extension {Mol Img : Type} (tk : Toolkit Mol Img)
    (smiles out : String) (size : Nat × Nat) (legend : String)
    (transparent no_h : Bool) (png_dpi : Nat) (m : Mol)
    (hs : pyStrip smiles ≠ "")
    (hp : tk.parse (pyStrip smiles) = some m)
    (hpng : pyLower (pathSuffix out) ≠ ".png")
    (hsvg : pyLower (pathSuffix out) ≠ ".svg") :
    render_molecule tk smiles out size legend transparent no_h png_dpi =
      (⟨some (pyStrip smiles), none, false, "Output must end with .png or .svg"⟩,
       ⟨[parentDir out], []⟩) := by
  obtain ⟨m', hm'⟩ := mol_from_smiles_of_parse tk (pyStrip smiles) no_h m hp
  simp [render_molecule, hs, hm', hpng, hsvg]

/-- Witness for C3 at a `.pdf` output path. -/
theorem C3_bad_extension_witness :
    pyStrip "CCO" ≠ "" ∧ tkU.parse (pyStrip "CCO") = some () ∧
    pyLower (pathSuffix "out/m.pdf") ≠ ".png" ∧
    pyLower (pathSuffix "out/m.pdf") ≠ ".svg" ∧
    render_molecule tkU "CCO" "out/m.pdf" (900, 700) "" true false 300 =
      (⟨some (pyStrip "CCO"), none, false, "Output must end with .png or .svg"⟩,
       ⟨[parentDir "out/m.pdf"], []⟩) :=
  ⟨by decide, rfl, by decide, by decide,
   C3_bad_extension tkU "CCO" "out/m.pdf" (900, 700) "" true false 300 ()
     (by decide) rfl (by decide) (by decide)⟩

/-- C9: after every successful parse the 2D-coordinate step is applied
unconditionally, before any hydrogen-removal attempt; when removal is
requested and raises, the original (with-hydrogen) graph is silently
kept, and rendering proceeds exactly as if removal had not been
requested (a normal result, not a failure). -/
theorem C9_h_removal_fallback {Mol Img : Type} (tk : Toolkit Mol Img)
    (smiles : String) (m0 : Mol)
    (hp : tk.parse (pyStrip smiles) = some m0) :
    _mol_from_smiles tk (pyStrip smiles) false = some (tk.compute2D m0) ∧
    (∀ m1, tk.removeHs (tk.compute2D m0) = some m1 →
       _mol_from_smiles tk (pyStrip smiles) true = some m1) ∧
    (tk.removeHs (tk.compute2D m0) = none →
       _mol_from_smiles tk (pyStrip smiles) true = some (tk.compute2D m0) ∧
       ∀ (out : String) (size : Nat × Nat) (legend : String)
         (transparent : Bool) (png_dpi : Nat),
         render_molecule tk smiles out size legend transparent true png_dpi =
           render_molecule tk smiles out size legend transparent false png_dpi) := by
  refine ⟨by simp [_mol_from_smiles, hp], fun m1 h1 => by simp [_mol_from_smiles, hp, h1],
    fun h0 => ⟨by simp [_mol_from_smiles, hp, h0], fun out size legend transparent png_dpi => ?_⟩⟩
  unfold render_molecule
  simp [_mol_from_smiles, hp, h0]

/-- Witness for C9 with a toolkit whose hydrogen removal raises. -/
theorem C9_h_removal_fallback_witness :
    tkHF.parse (pyStrip "C") = some () ∧
    tkHF.removeHs (tkHF.compute2D ()) = none ∧
    _mol_from_smiles tkHF (pyStrip "C") true = some (tkHF.compute2D ()) ∧
    render_molecule tkHF "C" "m.svg" (900, 700) "" true true 300 =
      render_molecule tkHF "C" "m.svg" (900, 700) "" true false 300 := by
  have h := C9_h_removal_fallback tkHF "C" () rfl
  exact ⟨rfl, rfl, (h.2.2 rfl).1, (h.2.2 rfl).2 "m.svg" (900, 700) "" true 300⟩

/-- C10: `render_grid` is independent of its background-transparency
argument — two calls differing only in the `transparent` flag return
identical results and identical file-system effects (including written
file contents); the flag is accepted but never applied. -/
theorem C10_transparent_independent {Mol Img : Type} (tk : Toolkit Mol Img)
    (smiles_list : List String) (out : String) (legends : Option (List String))
    (grid sub_img_size : Nat × Nat) (t1 t2 no_h : Bool) (png_dpi : Nat)
    (title : String) :
    render_grid tk smiles_list out legends grid sub_img_size t1 no_h png_dpi title =
      render_grid tk smiles_list out legends grid sub_img_size t2 no_h png_dpi title := rfl

/-- C5 counterexample: on empty input the resolver's message is
`"Empty name provided."` (with a trailing period), so it is not the
`"Empty name provided"` stated by the claim. -/
theorem C5_cex_message :
    (resolve_name_to_smiles lk0 "").message ≠ "Empty name provided" ∧
    (resolve_name_to_smiles lk0 "").message = "Empty name provided." := by
  constructor
  · decide
  · rfl

/-- C5 (amended): the resolver always returns a structured result (the
embedding is total over the lookup oracle): the structure string is
present only if the message is `"OK"`; empty or whitespace-only input
yields an absent structure with message `"Empty name provided."` and
source tag `"none"`; and a lookup fault (an exception raised by either
PubChem call) yields an absent structure and absent identifier with the
failure message `"PubChem resolution error: ..."`. -/
theorem C5_resolver_contract
    (lookup : String → String → Except String (List Compound)) (name : String) :
    ((resolve_name_to_smiles lookup name).smiles.isSome →
       (resolve_name_to_smiles lookup name).message = "OK") ∧
    (pyStrip name = "" →
       resolve_name_to_smiles lookup name =
         ⟨name, none, "none", none, "Empty name provided."⟩) ∧
    (∀ e, pyStrip name ≠ "" → lookup (pyStrip name) "name" = .error e →
       resolve_name_to_smiles lookup name =
         ⟨pyStrip name, none, "pubchem", none, "PubChem resolution error: " ++ e⟩) ∧
    (∀ e, pyStrip name ≠ "" → lookup (pyStrip name) "name" = .ok [] →
       lookup (pyStrip name) "query" = .error e →
       resolve_name_to_smiles lookup name =
         ⟨pyStrip name, none, "pubchem", none, "PubChem resolution error: " ++ e⟩) := by
  refine ⟨?_, ?_, ?_, ?_⟩
  · intro hs
    simp only [resolve_name_to_smiles] at hs ⊢
    repeat' split at hs
    all_goals simp_all
  · intro h
    simp [resolve_name_to_smiles, h]
  · intro e hne herr
    simp [resolve_name_to_smiles, hne, herr]
  · intro e hne hok herr
    simp [resolve_name_to_smiles, hne, hok, herr]

/-- Witness for C5 at a whitespace-only input and at a raising lookup. -/
theorem C5_resolver_contract_witness :
    pyStrip "  " = "" ∧
    resolve_name_to_smiles lkErr "  " =
      ⟨"  ", none, "none", none, "Empty name provided."⟩ ∧
    pyStrip "water" ≠ "" ∧ lkErr (pyStrip "water") "name" = .error "boom" ∧
    resolve_name_to_smiles lkErr "water" =
      ⟨pyStrip "water", none, "pubchem", none, "PubChem resolution error: " ++ "boom"⟩ :=
  ⟨by decide, (C5_resolver_contract lkErr "  ").2.1 (by decide),
   by decide, rfl,
   (C5_resolver_contract lkErr "water").2.2.1 "boom" (by decide) rfl⟩

/-- Every run of `render_molecule` either fails with an absent output
path, or succeeds with the trimmed input, the requested output path (a
file with that path having been written), and message `"OK"`. -/
theorem render_molecule_shape {Mol Img : Type} (tk : Toolkit Mol Img)
    (smiles out : String) (size : Nat × Nat) (legend : String)
    (transparent no_h : Bool) (png_dpi : Nat) :
    ((render_molecule tk smiles out size legend transparent no_h png_dpi).1.ok = false ∧
      (render_molecule tk smiles out size legend transparent no_h png_dpi).1.out_path = none) ∨
    ((render_molecule tk smiles out size legend transparent no_h png_dpi).1 =
        ⟨some (pyStrip smiles), some out, true, "OK"⟩ ∧
      ∃ fw ∈ (render_molecule tk smiles out size legend transparent no_h png_dpi).2.writes,
        fw.path = out) := by
  simp only [render_molecule]
  repeat' split
  all_goals simp [FileWrite.path]

/-- Every run of `render_grid` either fails with an absent output path,
or succeeds with the `"GRID"` sentinel, the requested output path (a file
with that path having been written), and message `"OK"`. -/
theorem render_grid_shape {Mol Img : Type} (tk : Toolkit Mol Img)
    (smiles_list : List String) (out : String) (legends : Option (List String))
    (grid sub_img_size : Nat × Nat) (transparent no_h : Bool) (png_dpi : Nat)
    (title : String) :
    ((render_grid tk smiles_list out legends grid sub_img_size transparent no_h png_dpi title).1.ok = false ∧
      (render_grid tk smiles_list out legends grid sub_img_size transparent no_h png_dpi title).1.out_path = none) ∨
    ((render_grid tk smiles_list out legends grid sub_img_size transparent no_h png_dpi title).1 =
        ⟨some "GRID", some out, true, "OK"⟩ ∧
      ∃ fw ∈ (render_grid tk smiles_list out legends grid sub_img_size transparent no_h png_dpi title).2.writes,
        fw.path = out) := by
  simp only [render_grid]
  repeat' split
  all_goals simp [FileWrite.path]

/-- C4: a successful `RenderResult` always carries the output path it was
asked to write (which was indeed written), the message `"OK"`, and — for
the single-molecule renderer — the (trimmed) input structure string;
conversely every failure result of `render_molecule` or `render_grid`
has an absent output path. -/
theorem C4_result_invariants {Mol Img : Type} (tk : Toolkit Mol Img) :
    (∀ (smiles out : String) (size : Nat × Nat) (legend : String)
       (transparent no_h : Bool) (png_dpi : Nat),
       ((render_molecule tk smiles out size legend transparent no_h png_dpi).1.ok = true →
          (render_molecule tk smiles out size legend transparent no_h png_dpi).1.out_path = some out ∧
          (render_molecule tk smiles out size legend transparent no_h png_dpi).1.message = "OK" ∧
          (render_molecule tk smiles out size legend transparent no_h png_dpi).1.smiles = some (pyStrip smiles) ∧
          ∃ fw ∈ (render_molecule tk smiles out size legend transparent no_h png_dpi).2.writes,
            fw.path = out) ∧
       ((render_molecule tk smiles out size legend transparent no_h png_dpi).1.ok = false →
          (render_molecule tk smiles out size legend transparent no_h png_dpi).1.out_path = none)) ∧
    (∀ (smiles_list : List String) (out : String) (legends : Option (List String))
       (grid sub_img_size : Nat × Nat) (transparent no_h : Bool) (png_dpi : Nat)
       (title : String),
       ((render_grid tk smiles_list out legends grid sub_img_size transparent no_h png_dpi title).1.ok = true →
          (render_grid tk smiles_list out legends grid sub_img_size transparent no_h png_dpi title).1.out_path = some out ∧
          (render_grid tk smiles_list out legends grid sub_img_size transparent no_h png_dpi title).1.message = "OK" ∧
          ∃ fw ∈ (render_grid tk smiles_list out legends grid sub_img_size transparent no_h png_dpi title).2.writes,
            fw.path = out) ∧
       ((render_grid tk smiles_list out legends grid sub_img_size transparent no_h png_dpi title).1.ok = false →
          (render_grid tk smiles_list out legends grid sub_img_size transparent no_h png_dpi title).1.out_path = none)) := by
  constructor
  · intro smiles out size legend transparent no_h png_dpi
    rcases render_molecule_shape tk smiles out size legend transparent no_h png_dpi with
      ⟨hf, hn⟩ | ⟨hr, hw⟩
    · exact ⟨fun hok => absurd (hf ▸ hok) (by simp), fun _ => hn⟩
    · refine ⟨fun _ => ⟨by rw [hr], by rw [hr], by rw [hr], hw⟩, fun hok => ?_⟩
      rw [hr] at hok
      simp at hok
  · intro smiles_list out legends grid sub_img_size transparent no_h png_dpi title
    rcases render_grid_shape tk smiles_list out legends grid sub_img_size transparent
      no_h png_dpi title with ⟨hf, hn⟩ | ⟨hr, hw⟩
    · exact ⟨fun hok => absurd (hf ▸ hok) (by simp), fun _ => hn⟩
    · refine ⟨fun _ => ⟨by rw [hr], by rw [hr], hw⟩, fun hok => ?_⟩
      rw [hr] at hok
      simp at hok

/-- Witness for C4 on a successful single render and a successful grid
render. -/
theorem C4_result_invariants_witness :
    (render_molecule tkU "CCO" "m.svg" (900, 700) "" true false 300).1.ok = true ∧
    ((render_molecule tkU "CCO" "m.svg" (900, 700) "" true false 300).1.out_path = some "m.svg" ∧
     (render_molecule tkU "CCO" "m.svg" (900, 700) "" true false 300).1.message = "OK" ∧
     (render_molecule tkU "CCO" "m.svg" (900, 700) "" true false 300).1.smiles = some (pyStrip "CCO") ∧
     ∃ fw ∈ (render_molecule tkU "CCO" "m.svg" (900, 700) "" true false 300).2.writes,
       fw.path = "m.svg") ∧
    (render_grid tkU ["CCO"] "g.pdf" none (2, 3) (550, 450) true false 300 "").1.ok = false ∧
    (render_grid tkU ["CCO"] "g.pdf" none (2, 3) (550, 450) true false 300 "").1.out_path = none := by
  refine ⟨rfl, ((C4_result_invariants tkU).1 "CCO" "m.svg" (900, 700) "" true false 300).1 rfl,
    rfl, ((C4_result_invariants tkU).2 ["CCO"] "g.pdf" none (2, 3) (550, 450) true false 300 "").2 rfl⟩

/-- The panel loop produces exactly `ceil(N / capacity)` panels for `N`
items (capacity written as `c + 1`; `_parse_grid` guarantees it is
positive). -/
theorem panelLoop_length {Mol Img : Type} (tk : Toolkit Mol Img)
    (out_dir titlePfx fmt : String) (grid : Nat × Nat) (no_h captions : Bool)
    (c : Nat) :
    ∀ (n : Nat) (items : List (String × String × String)), items.length ≤ n → ∀ idx,
      (panelLoop tk out_dir titlePfx fmt grid no_h captions (c + 1) idx items).length =
        (items.length + c) / (c + 1) := by
  intro n
  induction n with
  | zero =>
    intro items h idx
    have : items = [] := List.length_eq_zero.mp (by omega)
    subst this
    simp only [panelLoop, List.length_nil, Nat.zero_add]
    exact (Nat.div_eq_of_lt (Nat.lt_succ_self c)).symm
  | succ n ih =>
    intro items h idx
    match items with
    | [] =>
      simp only [panelLoop, List.length_nil, Nat.zero_add]
      exact (Nat.div_eq_of_lt (Nat.lt_succ_self c)).symm
    | x :: xs =>
      have hdrop : ((x :: xs).drop (c + 1)).length = xs.length - c := by
        simp only [List.length_drop, List.length_cons]
        omega
      have hrec := ih ((x :: xs).drop (c + 1))
        (by simp only [List.length_drop, List.length_cons] at h ⊢; omega) (idx + 1)
      simp only [panelLoop, List.length_cons]
      rw [hrec, hdrop]
      rcases le_or_lt c xs.length with hcase | hcase
      · have h1 : xs.length - c + c = xs.length := by omega
        have h2 : xs.length + 1 + c = xs.length + (c + 1) := by omega
        rw [h1, h2, Nat.add_div_right _ (by omega)]
      · have h1 : xs.length - c = 0 := by omega
        have h2 : (0 + c) / (c + 1) = 0 := Nat.div_eq_of_lt (by omega)
        have h3 : xs.length + 1 + c = (xs.length + 1 + c - (c + 1)) + (c + 1) := by omega
        rw [h1, h2, h3, Nat.add_div_right _ (by omega), Nat.div_eq_of_lt (by omega)]

/-- Title, output path and cell count of the `j`-th panel produced by the
panel loop started at running index `idx`. -/
theorem panelLoop_get {Mol Img : Type} (tk : Toolkit Mol Img)
    (out_dir titlePfx fmt : String) (grid : Nat × Nat) (no_h captions : Bool)
    (c : Nat) :
    ∀ (n : Nat) (items : List (String × String × String)), items.length ≤ n →
    ∀ idx j p,
      (panelLoop tk out_dir titlePfx fmt grid no_h captions (c + 1) idx items).get? j = some p →
      p.title = titlePfx ++ " " ++ zfill 3 (idx + j) ∧
      p.out = out_dir ++ "/panel_" ++ zfill 3 (idx + j) ++ "." ++ fmt ∧
      p.cells.length ≤ c + 1 ∧ 1 ≤ p.cells.length := by
  intro n
  induction n with
  | zero =>
    intro items h idx j p hp
    have : items = [] := List.length_eq_zero.mp (by omega)
    subst this
    simp [panelLoop] at hp
  | succ n ih =>
    intro items h idx j p hp
    match items with
    | [] => simp [panelLoop] at hp
    | x :: xs =>
      match j with
      | 0 =>
        simp only [panelLoop, List.get?_cons_zero, Option.some.injEq] at hp
        subst hp
        refine ⟨by simp, by simp, ?_, ?_⟩
        · simp [List.length_take]
        · simp only [List.length_take, List.length_cons]
          omega
      | j + 1 =>
        have hstep :
            (panelLoop tk out_dir titlePfx fmt grid no_h captions (c + 1) idx (x :: xs)).get? (j + 1) =
            (panelLoop tk out_dir titlePfx fmt grid no_h captions (c + 1) (idx + 1)
                ((x :: xs).drop (c + 1))).get? j := by
          simp only [panelLoop]
          exact List.get?_cons_succ ..
        rw [hstep] at hp
        have hrec := ih ((x :: xs).drop (c + 1))
          (by simp only [List.length_drop, List.length_cons] at h ⊢; omega) (idx + 1) j p hp
        have harith : idx + 1 + j = idx + (j + 1) := by omega
        rw [harith] at hrec
        exact hrec

/-- C7: a batch run with panel generation enabled and positive grid
dimensions produces exactly `ceil(N / (rows*cols))` panels for `N`
rendered items — never more — each holding between 1 and `rows*cols`
cells, with sequentially numbered zero-padded titles
(`titlePfx ++ " 001"`, `" 002"`, …) and output files
`panel_001`, `panel_002`, …; with zero rendered items no panel is
produced. -/
theorem C7_panel_chunking {Mol Img : Type} (tk : Toolkit Mol Img)
    (out_dir titlePfx fmt : String) (rows cols : Nat) (no_h captions : Bool)
    (order_by : String) (items : List (String × String × String))
    (hr : 1 ≤ rows) (hc : 1 ≤ cols) :
    (batchPanels tk out_dir titlePfx fmt (rows, cols) no_h captions true order_by items).length =
        (items.length + rows * cols - 1) / (rows * cols) ∧
    (∀ j p,
      (batchPanels tk out_dir titlePfx fmt (rows, cols) no_h captions true order_by items).get? j
          = some p →
      p.title = titlePfx ++ " " ++ zfill 3 (j + 1) ∧
      p.out = out_dir ++ "/panel_" ++ zfill 3 (j + 1) ++ "." ++ fmt ∧
      p.cells.length ≤ rows * cols ∧ 1 ≤ p.cells.length) ∧
    (items = [] →
      batchPanels tk out_dir titlePfx fmt (rows, cols) no_h captions true order_by items = []) := by
  have hcap : 0 < rows * cols := Nat.mul_pos (by omega) (by omega)
  obtain ⟨c, hc'⟩ : ∃ c, rows * cols = c + 1 := ⟨rows * cols - 1, by omega⟩
  cases items with
  | nil =>
    refine ⟨?_, ?_, fun _ => by simp [batchPanels]⟩
    · simp only [batchPanels]
      rw [if_neg (by simp)]
      simp only [List.length_nil, Nat.zero_add, hc']
      have h0 : c + 1 - 1 = c := by omega
      rw [h0]
      exact (Nat.div_eq_of_lt (by omega)).symm
    · intro j p hp
      simp [batchPanels] at hp
  | cons x xs =>
    have hbp : batchPanels tk out_dir titlePfx fmt (rows, cols) no_h captions true order_by (x :: xs) =
        panelLoop tk out_dir titlePfx fmt (rows, cols) no_h captions (c + 1) 1
          (if pyLower order_by = "name" then
            (x :: xs).mergeSort (fun a b => decide (pyLower a.1 ≤ pyLower b.1))
          else (x :: xs)) := by
      simp only [batchPanels]
      rw [if_pos (by simp)]
      simp only [hc']
    set items2 := (if pyLower order_by = "name" then
        (x :: xs).mergeSort (fun a b => decide (pyLower a.1 ≤ pyLower b.1))
      else (x :: xs)) with hi2
    have hlen2 : items2.length = (x :: xs).length := by
      rw [hi2]
      split
      · exact List.length_mergeSort ..
      · rfl
    refine ⟨?_, ?_, fun he => (List.cons_ne_nil x xs he).elim⟩
    · rw [hbp, panelLoop_length tk out_dir titlePfx fmt (rows, cols) no_h captions c
        items2.length items2 le_rfl 1, hlen2, hc']
      have harith : (x :: xs).length + (c + 1) - 1 = (x :: xs).length + c := by omega
      rw [harith]
    · intro j p hp
      rw [hbp] at hp
      have h := panelLoop_get tk out_dir titlePfx fmt (rows, cols) no_h captions c
        items2.length items2 le_rfl 1 j p hp
      rw [hc']
      have harith : 1 + j = j + 1 := by omega
      rw [harith] at h
      exact h

/-- Witness for C7 on the spec's grid scenario: 7 items with a 2x3 grid
give exactly ceil(7/6) = 2 panels. -/
theorem C7_panel_chunking_witness :
    1 ≤ 2 ∧ 1 ≤ 3 ∧
    (batchPanels tkU "od" "Panel" "svg" (2, 3) false false true "input"
        [("a", "A", "f1"), ("b", "B", "f2"), ("c", "C", "f3"), ("d", "D", "f4"),
         ("e", "E", "f5"), ("f", "F", "f6"), ("g", "G", "f7")]).length =
      (([("a", "A", "f1"), ("b", "B", "f2"), ("c", "C", "f3"), ("d", "D", "f4"),
         ("e", "E", "f5"), ("f", "F", "f6"), ("g", "G", "f7")] :
          List (String × String × String)).length + 2 * 3 - 1) / (2 * 3) ∧
    (([("a", "A", "f1"), ("b", "B", "f2"), ("c", "C", "f3"), ("d", "D", "f4"),
       ("e", "E", "f5"), ("f", "F", "f6"), ("g", "G", "f7")] :
        List (String × String × String)).length + 2 * 3 - 1) / (2 * 3) = 2 :=
  ⟨by decide, by decide,
   (C7_panel_chunking tkU "od" "Panel" "svg" 2 3 false false "input"
      [("a", "A", "f1"), ("b", "B", "f2"), ("c", "C", "f3"), ("d", "D", "f4"),
       ("e", "E", "f5"), ("f", "F", "f6"), ("g", "G", "f7")] (by decide) (by decide)).1,
   by decide⟩

/-- Every report entry of one batch-row step carries the row index it was
built from, and either only the minimal keys (`row`, `ok`, `message`,
recorded before the render step) or all eight keys. -/
theorem batchRow_shape {Mol Img : Type} (tk : Toolkit Mol Img)
    (lookup : String → String → Except String (List Compound))
    (has_smiles has_name : Bool) (out_dir fmt : String) (no_h : Bool)
    (i : Nat) (cell : String × String) :
    (batchRow tk lookup has_smiles has_name out_dir fmt no_h i cell).1.row = i ∧
    (((batchRow tk lookup has_smiles has_name out_dir fmt no_h i cell).1.query = none ∧
      (batchRow tk lookup has_smiles has_name out_dir fmt no_h i cell).1.legend = none ∧
      (batchRow tk lookup has_smiles has_name out_dir fmt no_h i cell).1.out = none ∧
      (batchRow tk lookup has_smiles has_name out_dir fmt no_h i cell).1.source = none ∧
      (batchRow tk lookup has_smiles has_name out_dir fmt no_h i cell).1.cid = none ∧
      (batchRow tk lookup has_smiles has_name out_dir fmt no_h i cell).1.ok = false) ∨
     ((batchRow tk lookup has_smiles has_name out_dir fmt no_h i cell).1.query.isSome ∧
      (batchRow tk lookup has_smiles has_name out_dir fmt no_h i cell).1.legend.isSome ∧
      (batchRow tk lookup has_smiles has_name out_dir fmt no_h i cell).1.out.isSome ∧
      (batchRow tk lookup has_smiles has_name out_dir fmt no_h i cell).1.source.isSome ∧
      (batchRow tk lookup has_smiles has_name out_dir fmt no_h i cell).1.cid.isSome)) := by
  simp only [batchRow]
  repeat' split
  all_goals simp

/-- The report built by the batch row loop has one entry per input row,
the `j`-th entry carrying row index `i + j` and either the minimal or
the full key set. -/
theorem batchRows_report {Mol Img : Type} (tk : Toolkit Mol Img)
    (lookup : String → String → Except String (List Compound))
    (has_smiles has_name : Bool) (out_dir fmt : String) (no_h : Bool) :
    ∀ (rows : List (String × String)) (i : Nat),
      (batchRows tk lookup has_smiles has_name out_dir fmt no_h i rows).1.length = rows.length ∧
      ∀ j e,
        (batchRows tk lookup has_smiles has_name out_dir fmt no_h i rows).1.get? j = some e →
        e.row = i + j ∧
        ((e.query = none ∧ e.legend = none ∧ e.out = none ∧ e.source = none ∧
          e.cid = none ∧ e.ok = false) ∨
         (e.query.isSome ∧ e.legend.isSome ∧ e.out.isSome ∧ e.source.isSome ∧ e.cid.isSome)) := by
  intro rows
  induction rows with
  | nil =>
    intro i
    exact ⟨rfl, by intro j e he; simp [batchRows] at he⟩
  | cons r rest ih =>
    intro i
    refine ⟨?_, ?_⟩
    · simp only [batchRows, List.length_cons]
      rw [(ih (i + 1)).1]
    · intro j e he
      match j with
      | 0 =>
        simp only [batchRows, List.get?_cons_zero, Option.some.injEq] at he
        subst he
        have h := batchRow_shape tk lookup has_smiles has_name out_dir fmt no_h i r
        exact ⟨by rw [Nat.add_zero]; exact h.1, h.2⟩
      | j + 1 =>
        simp only [batchRows, List.get?_cons_succ] at he
        have h := (ih (i + 1)).2 j e he
        have harith : i + 1 + j = i + (j + 1) := by omega
        rw [harith] at h
        exact h

/-- C8 (amended): when at least one of the two columns exists, a batch
run returns a report with exactly one entry per input row — the `j`-th
entry carrying row index `j` — that is always written to
`molpic_report.csv`; entries of rows that reached the render step carry
all eight fields, while rows that failed before rendering (empty query,
failed name resolution) record only row index, success flag and
message. -/
theorem C8_report_rows {Mol Img : Type} (tk : Toolkit Mol Img)
    (lookup : String → String → Except String (List Compound))
    (rows : List (String × String)) (has_smiles has_name : Bool)
    (out_dir fmt : String) (no_h make_panels : Bool) (grid : Nat × Nat)
    (titlePfx : String) (captions : Bool) (order_by : String)
    (hcols : has_smiles = true ∨ has_name = true) :
    ∃ report panels eff,
      batch tk lookup rows has_smiles has_name out_dir fmt no_h make_panels grid
          titlePfx captions order_by = some (report, panels, eff) ∧
      report.length = rows.length ∧
      (∀ j e, report.get? j = some e →
        e.row = j ∧
        ((e.query = none ∧ e.legend = none ∧ e.out = none ∧ e.source = none ∧
          e.cid = none ∧ e.ok = false) ∨
         (e.query.isSome ∧ e.legend.isSome ∧ e.out.isSome ∧ e.source.isSome ∧ e.cid.isSome))) ∧
      FileWrite.table (out_dir ++ "/molpic_report.csv") report ∈ eff.writes := by
  simp only [batch]
  rw [if_neg (by rcases hcols with h | h <;> simp [h])]
  refine ⟨_, _, _, rfl, (batchRows_report tk lookup has_smiles has_name out_dir fmt no_h rows 0).1,
    ?_, ?_⟩
  · intro j e he
    have h := (batchRows_report tk lookup has_smiles has_name out_dir fmt no_h rows 0).2 j e he
    rwa [Nat.zero_add] at h
  · simp [Effects.app]

/-- Witness for C8 on a one-row batch whose row renders successfully. -/
theorem C8_report_rows_witness :
    (true = true ∨ true = true) ∧
    ∃ report panels eff,
      batch tkU lkErr [("CCO", "ethanol")] true true "od" "svg" false false (2, 3)
          "Panel" false "input" = some (report, panels, eff) ∧
      report.length = [("CCO", "ethanol")].length ∧
      (∀ j e, report.get? j = some e →
        e.row = j ∧
        ((e.query = none ∧ e.legend = none ∧ e.out = none ∧ e.source = none ∧
          e.cid = none ∧ e.ok = false) ∨
         (e.query.isSome ∧ e.legend.isSome ∧ e.out.isSome ∧ e.source.isSome ∧ e.cid.isSome))) ∧
      FileWrite.table ("od" ++ "/molpic_report.csv") report ∈ eff.writes :=
  ⟨Or.inl rfl,
   C8_report_rows tkU lkErr [("CCO", "ethanol")] true true "od" "svg" false false (2, 3)
     "Panel" false "input" (Or.inl rfl)⟩

/-- C8 counterexample: a batch over one row whose smiles and name cells
are both empty records an entry that has only the `row`, `ok` and
`message` keys — its `query`, `legend`, `out`, `source` and `cid` fields
are absent, so not every entry contains all eight fields. -/
theorem C8_cex_minimal_entry :
    (batch tkU lk0 [("", "")] true true "od" "svg" false false (2, 3) "Panel" false
        "input").map
        (fun t => t.1.map (fun e =>
          (e.row, e.query, e.legend, e.out, e.source, e.cid, e.message))) =
      some [(0, none, none, none, none, none, "empty")] := rfl

/-- The fuel of `natDigitsAux` is irrelevant once it exceeds the number. -/
theorem natDigitsAux_mono : ∀ (n f g : Nat), n < f → n < g →
    natDigitsAux f n = natDigitsAux g n := by
  intro n
  induction n using Nat.strong_induction_on with
  | _ n ih =>
    intro f g hf hg
    obtain ⟨f', rfl⟩ : ∃ f', f = f' + 1 := ⟨f - 1, by omega⟩
    obtain ⟨g', rfl⟩ : ∃ g', g = g' + 1 := ⟨g - 1, by omega⟩
    simp only [natDigitsAux]
    by_cases h10 : n < 10
    · simp [h10]
    · simp only [h10, if_false]
      have := ih (n / 10) (by omega) f' g' (by omega) (by omega)
      rw [this]

/-- Recurrence of the decimal printer. -/
theorem natDigits_eq (n : Nat) :
    natDigits n =
      if n < 10 then [digitChar n] else natDigits (n / 10) ++ [digitChar (n % 10)] := by
  by_cases h10 : n < 10
  · simp [natDigits, natDigitsAux, h10]
  · simp only [h10, if_false]
    show natDigitsAux (n + 1) n = natDigitsAux (n / 10 + 1) (n / 10) ++ [digitChar (n % 10)]
    have h1 : natDigitsAux (n + 1) n = natDigitsAux n (n / 10) ++ [digitChar (n % 10)] := by
      simp [natDigitsAux, h10]
    rw [h1, natDigitsAux_mono (n / 10) n (n / 10 + 1) (by omega) (by omega)]

/-- A number always prints at least one digit. -/
theorem natDigits_ne_nil (n : Nat) : natDigits n ≠ [] := by
  rw [natDigits_eq]
  split <;> simp

/-- Digit characters are digits. -/
theorem digitChar_isDigit (d : Nat) (h : d < 10) : (digitChar d).isDigit = true := by
  interval_cases d <;> decide

/-- `digitVal` inverts `digitChar` on single digits. -/
theorem digitVal_digitChar (d : Nat) (h : d < 10) : digitVal (digitChar d) = d := by
  interval_cases d <;> decide

/-- Every character a number prints is a digit. -/
theorem natDigits_all_digits : ∀ (n : Nat), ∀ c ∈ natDigits n, c.isDigit = true := by
  intro n
  induction n using Nat.strong_induction_on with
  | _ n ih =>
    intro c hc
    rw [natDigits_eq] at hc
    by_cases h10 : n < 10
    · simp only [h10, if_true] at hc
      simp at hc
      subst hc
      exact digitChar_isDigit n h10
    · simp only [h10, if_false, List.mem_append] at hc
      rcases hc with hc | hc
      · exact ih (n / 10) (by omega) c hc
      · simp at hc
        subst hc
        exact digitChar_isDigit (n % 10) (by omega)

/-- Parsing the printed digits of a number gives the number back. -/
theorem natFromDigits_natDigits : ∀ (n : Nat), natFromDigits (natDigits n) = n := by
  intro n
  induction n using Nat.strong_induction_on with
  | _ n ih =>
    rw [natDigits_eq]
    by_cases h10 : n < 10
    · simp only [h10, if_true]
      simp [natFromDigits, digitVal_digitChar n h10]
    · simp only [h10, if_false]
      unfold natFromDigits
      rw [List.foldl_append]
      have hrec := ih (n / 10) (by omega)
      unfold natFromDigits at hrec
      rw [hrec]
      simp [digitVal_digitChar (n % 10) (by omega)]
      omega

/-- Stripping a key from a list that starts with it. -/
theorem stripKey_append_self : ∀ (k s : List Char), stripKey k (k ++ s) = some s := by
  intro k
  induction k with
  | nil => intro s; rfl
  | cons kc ks ih => intro s; simp [stripKey, ih]

/-- A mismatch inside the compared region makes `stripKey` fail whatever
follows. -/
theorem stripKey_none_of_mismatch : ∀ (k y q : List Char),
    mismatchWithin k y = true → stripKey k (y ++ q) = none := by
  intro k
  induction k with
  | nil => intro y q h; cases y <;> simp [mismatchWithin] at h
  | cons kc ks ih =>
    intro y q h
    cases y with
    | nil => simp [mismatchWithin] at h
    | cons c cs =>
      simp only [mismatchWithin] at h
      by_cases hc : c = kc
      · rw [if_pos hc] at h
        simp [stripKey, hc, ih cs q h]
      · simp [stripKey, hc]

/-- A mismatch inside the compared region makes the attribute pattern
fail whatever follows. -/
theorem attrNumAt_none_of_mismatch (k y q : List Char) (h : mismatchWithin k y = true) :
    attrNumAt k (y ++ q) = none := by
  simp [attrNumAt, stripKey_none_of_mismatch k y q h]

/-- Head mismatch is a mismatch. -/
theorem mismatchWithin_head (k c : Char) (ks cs : List Char) (h : ¬c = k) :
    mismatchWithin (k :: ks) (c :: cs) = true := by
  simp [mismatchWithin, h]

/-- Soundness of the `allSuffixMismatch` check. -/
theorem allSuffixMismatch_spec : ∀ (key p : List Char), allSuffixMismatch key p = true →
    ∀ y, y <:+ p → y ≠ [] → mismatchWithin key y = true := by
  intro key p
  induction p with
  | nil =>
    intro _ y hy hne
    rw [List.suffix_nil] at hy
    exact absurd hy hne
  | cons c cs ih =>
    intro h y hy hne
    simp only [allSuffixMismatch, Bool.and_eq_true] at h
    rcases List.suffix_cons_iff.mp hy with heq | hsfx
    · rw [heq]
      exact h.1
    · exact ih h.2 y hsfx hne

/-- A suffix of `A ++ B` is a suffix of `B` or a non-empty suffix of `A`
followed by all of `B`. -/
theorem suffix_append_cases {α : Type} : ∀ (A B Y : List α), Y <:+ A ++ B →
    Y <:+ B ∨ ∃ Ya, Ya <:+ A ∧ Ya ≠ [] ∧ Y = Ya ++ B := by
  intro A
  induction A with
  | nil =>
    intro B Y h
    exact Or.inl (by simpa using h)
  | cons a A' ih =>
    intro B Y h
    rw [List.cons_append] at h
    rcases List.suffix_cons_iff.mp h with heq | hsfx
    · exact Or.inr ⟨a :: A', List.suffix_refl _, by simp, by simpa using heq⟩
    · rcases ih B Y hsfx with h1 | ⟨Ya, h1, h2, h3⟩
      · exact Or.inl h1
      · exact Or.inr ⟨Ya, List.suffix_cons_iff.mpr (Or.inr h1), h2, h3⟩

/-- When no position inside `p` starts a match, the left-to-right scan
over `p ++ q` reduces to the scan over `q`. -/
theorem searchNumAttr_append_none : ∀ (key p q : List Char),
    (∀ y, y <:+ p → y ≠ [] → attrNumAt key (y ++ q) = none) →
    searchNumAttr key (p ++ q) = searchNumAttr key q := by
  intro key p
  induction p with
  | nil => intro q _; rfl
  | cons c cs ih =>
    intro q hp
    have h0 : attrNumAt key ((c :: cs) ++ q) = none :=
      hp (c :: cs) (List.suffix_refl _) (by simp)
    rw [List.cons_append] at h0 ⊢
    simp only [searchNumAttr]
    rw [h0]
    exact ih q (fun y hy hne => hp y (List.suffix_cons_iff.mpr (Or.inr hy)) hne)

/-- `takeWhile`/`dropWhile` on digits followed by a quote. -/
theorem takeWhile_digits_append (r : List Char) : ∀ (ds : List Char),
    (∀ c ∈ ds, c.isDigit = true) →
    (ds ++ '"' :: r).takeWhile Char.isDigit = ds ∧
    (ds ++ '"' :: r).dropWhile Char.isDigit = '"' :: r := by
  intro ds
  induction ds with
  | nil =>
    intro _
    constructor <;> simp [List.takeWhile, List.dropWhile]
  | cons d t ih =>
    intro h
    have hd : d.isDigit = true := h d (by simp)
    have ht := ih (fun c hc => h c (by simp [hc]))
    simp [List.takeWhile_cons, List.dropWhile_cons, hd, ht.1, ht.2]

/-- The attribute pattern matches at the key position, capturing the
printed number. -/
theorem attrNumAt_key_digits (key : List Char) (m : Nat) (r : List Char) :
    attrNumAt key (key ++ (natDigits m ++ '"' :: r)) = some m := by
  unfold attrNumAt
  rw [stripKey_append_self]
  have h1 := takeWhile_digits_append r (natDigits m) (natDigits_all_digits m)
  simp only [h1.1, h1.2]
  simp [natDigits_ne_nil m, natFromDigits_natDigits m]

/-- The scan starting exactly at the key returns the captured number. -/
theorem searchNumAttr_key_head (kc : Char) (ks : List Char) (m : Nat) (r : List Char) :
    searchNumAttr (kc :: ks) ((kc :: ks) ++ (natDigits m ++ '"' :: r)) = some m := by
  have h := attrNumAt_key_digits (kc :: ks) m r
  rw [List.cons_append] at h ⊢
  simp only [searchNumAttr]
  rw [h]

/-- The first `width="..."` match in the wrapping markup is the outer
header's width attribute. -/
theorem searchWidth_wrapped (w : Nat) (R : List Char) :
    searchNumAttr widthKeyL
      ("<svg xmlns=\"http://www.w3.org/2000/svg\" ".data ++
        (widthKeyL ++ (natDigits w ++ '"' :: R))) = some w := by
  rw [searchNumAttr_append_none widthKeyL _ _ ?hnom]
  case hnom =>
    intro y hy hne
    exact attrNumAt_none_of_mismatch _ _ _
      (allSuffixMismatch_spec widthKeyL ("<svg xmlns=\"http://www.w3.org/2000/svg\" ".data)
        (by decide) y hy hne)
  have hk : widthKeyL = 'w' :: "idth=\"".data := by decide
  rw [hk]
  exact searchNumAttr_key_head 'w' ("idth=\"".data) w R

/-- The first `height="..."` match in the wrapping markup is the outer
header's height attribute, whatever digits the width prints. -/
theorem searchHeight_wrapped (w m : Nat) (R : List Char) :
    searchNumAttr heightKeyL
      ("<svg xmlns=\"http://www.w3.org/2000/svg\" width=\"".data ++
        (natDigits w ++ ('"' :: ' ' :: (heightKeyL ++ (natDigits m ++ '"' :: R))))) =
      some m := by
  have hre : "<svg xmlns=\"http://www.w3.org/2000/svg\" width=\"".data ++
        (natDigits w ++ ('"' :: ' ' :: (heightKeyL ++ (natDigits m ++ '"' :: R)))) =
      ("<svg xmlns=\"http://www.w3.org/2000/svg\" width=\"".data ++
        (natDigits w ++ ['"', ' '])) ++ (heightKeyL ++ (natDigits m ++ '"' :: R)) := by
    simp [List.append_assoc]
  rw [hre]
  rw [searchNumAttr_append_none heightKeyL _ _ ?hnom]
  case hnom =>
    intro y hy hne
    rcases suffix_append_cases _ _ y hy with h1 | ⟨ya, hya, hyane, rfl⟩
    · -- y is a suffix of `natDigits w ++ ['"', ' ']`
      rcases suffix_append_cases _ _ y h1 with h2 | ⟨yd, hyd, hydne, rfl⟩
      · -- y is a suffix of `['"', ' ']`
        rcases List.suffix_cons_iff.mp h2 with heq | h3
        · subst heq
          exact attrNumAt_none_of_mismatch _ _ _ (by decide)
        · rcases List.suffix_cons_iff.mp h3 with heq | h4
          · subst heq
            exact attrNumAt_none_of_mismatch _ _ _ (by decide)
          · rw [List.suffix_nil] at h4
            exact absurd h4 hne
      · -- y = yd ++ ['"', ' '] with yd a non-empty suffix of the digits
        cases yd with
        | nil => exact absurd rfl hydne
        | cons d t =>
          have hdmem : d ∈ natDigits w := hyd.sublist.subset (by simp)
          have hdd : d.isDigit = true := natDigits_all_digits w d hdmem
          have hdh : ¬d = 'h' := by
            intro heq
            subst heq
            exact absurd hdd (by decide)
          have hmm : mismatchWithin heightKeyL (d :: (t ++ ['"', ' '])) = true := by
            have hk : heightKeyL = 'h' :: "eight=\"".data := by decide
            rw [hk]
            exact mismatchWithin_head 'h' d _ _ hdh
          have := attrNumAt_none_of_mismatch heightKeyL (d :: (t ++ ['"', ' ']))
            (heightKeyL ++ (natDigits m ++ '"' :: R)) hmm
          simpa [List.append_assoc] using this
    · -- y = ya ++ (digits ++ quote-space) with ya a non-empty suffix of the literal
      have hmm := allSuffixMismatch_spec heightKeyL
        ("<svg xmlns=\"http://www.w3.org/2000/svg\" width=\"".data) (by decide) ya hya hyane
      have := attrNumAt_none_of_mismatch heightKeyL ya
        ((natDigits w ++ ['"', ' ']) ++ (heightKeyL ++ (natDigits m ++ '"' :: R))) hmm
      simpa [List.append_assoc] using this
  have hk : heightKeyL = 'h' :: "eight=\"".data := by decide
  rw [hk]
  exact searchNumAttr_key_head 'h' ("eight=\"".data) m R

set_option maxRecDepth 8000 in
/-- C6 (amended): for a title that is empty or whitespace-only, or a
markup without an `<svg` tag, the markup is returned unchanged; for every
other title and markup, the produced outer markup's first declared height
is the original markup's first declared height (1000 when none parses)
plus the fixed 70-unit margin, its first declared width is the original's
(1500 when none parses), the original markup — after stripping an
optional leading XML declaration and DOCTYPE — is preserved byte-for-byte
inside a group translated 70 units downward, and the title text is
embedded in the output. -/
theorem C6_title_injection (svg title : String) :
    (pyStrip title = "" → _inject_svg_title svg title 70 = svg) ∧
    (hasSubL "<svg".data svg.data = false → _inject_svg_title svg title 70 = svg) ∧
    (pyStrip title ≠ "" → hasSubL "<svg".data svg.data = true →
      searchNumAttr heightKeyL (_inject_svg_title svg title 70).data =
        some ((searchNumAttr heightKeyL svg.data).getD 1000 + 70) ∧
      searchNumAttr widthKeyL (_inject_svg_title svg title 70).data =
        some ((searchNumAttr widthKeyL svg.data).getD 1500) ∧
      List.IsInfix
        ("<g transform=\"translate(0,70)\">\n    ".data ++
          (stripDoctypeHdr (stripXmlHdr svg.data) ++ "\n  </g>".data))
        (_inject_svg_title svg title 70).data ∧
      List.IsInfix title.data (_inject_svg_title svg title 70).data) := by
  refine ⟨fun h1 => by simp [_inject_svg_title, h1], fun h2 => ?_, fun h1 h2 => ?_⟩
  · by_cases ht : pyStrip title = ""
    · simp [_inject_svg_title, ht]
    · simp [_inject_svg_title, ht, h2]
  · have hdata0 : (_inject_svg_title svg title 70).data =
        "<svg xmlns=\"http://www.w3.org/2000/svg\" width=\"".data ++
        (natDigits ((searchNumAttr widthKeyL svg.data).getD 1500) ++
        ("\" height=\"".data ++
        (natDigits ((searchNumAttr heightKeyL svg.data).getD 1000 + 70) ++
        ("\" viewBox=\"0 0 ".data ++
        (natDigits ((searchNumAttr widthKeyL svg.data).getD 1500) ++
        (" ".data ++
        (natDigits ((searchNumAttr heightKeyL svg.data).getD 1000 + 70) ++
        ("\">\n  <text x=\"".data ++
        ((pyHalfStr ((searchNumAttr widthKeyL svg.data).getD 1500)).data ++
        ("\" y=\"".data ++
        ((pyMulStr65 70).data ++
        ("\" text-anchor=\"middle\" font-size=\"28\" font-family=\"Arial\">".data ++
        (title.data ++
        ("</text>\n  <g transform=\"translate(0,".data ++
        (natDigits 70 ++
        (")\">\n    ".data ++
        (stripDoctypeHdr (stripXmlHdr svg.data) ++
         "\n  </g>\n</svg>\n".data))))))))))))))))) := by
      simp only [_inject_svg_title]
      rw [if_neg h1, if_neg (by simp [h2])]
      simp [natStr, String.data_append, List.append_assoc]
    refine ⟨?_, ?_, ?_, ?_⟩
    · -- declared height of the output
      have e2 : ("\" height=\"" : String).data = '"' :: ' ' :: heightKeyL := by decide
      have e3 : ("\" viewBox=\"0 0 " : String).data = '"' :: " viewBox=\"0 0 ".data := by
        decide
      rw [e2, e3] at hdata0
      simp only [List.cons_append, List.append_assoc] at hdata0
      rw [hdata0]
      exact searchHeight_wrapped _ _ _
    · -- declared width of the output
      have e1 : ("<svg xmlns=\"http://www.w3.org/2000/svg\" width=\"" : String).data =
          "<svg xmlns=\"http://www.w3.org/2000/svg\" ".data ++ widthKeyL := by decide
      have e2 : ("\" height=\"" : String).data = '"' :: ' ' :: heightKeyL := by decide
      rw [e1, e2] at hdata0
      simp only [List.cons_append, List.append_assoc] at hdata0
      rw [hdata0]
      exact searchWidth_wrapped _ _
    · -- the stripped original markup sits inside the translated group
      refine ⟨"<svg xmlns=\"http://www.w3.org/2000/svg\" width=\"".data ++
        (natDigits ((searchNumAttr widthKeyL svg.data).getD 1500) ++
        ("\" height=\"".data ++
        (natDigits ((searchNumAttr heightKeyL svg.data).getD 1000 + 70) ++
        ("\" viewBox=\"0 0 ".data ++
        (natDigits ((searchNumAttr widthKeyL svg.data).getD 1500) ++
        (" ".data ++
        (natDigits ((searchNumAttr heightKeyL svg.data).getD 1000 + 70) ++
        ("\">\n  <text x=\"".data ++
        ((pyHalfStr ((searchNumAttr widthKeyL svg.data).getD 1500)).data ++
        ("\" y=\"".data ++
        ((pyMulStr65 70).data ++
        ("\" text-anchor=\"middle\" font-size=\"28\" font-family=\"Arial\">".data ++
        (title.data ++ "</text>\n  ".data))))))))))))),
        "\n</svg>\n".data, ?_⟩
      rw [hdata0]
      have e6 : ("</text>\n  <g transform=\"translate(0," : String).data =
          "</text>\n  ".data ++ "<g transform=\"translate(0,".data := by decide
      have e7 : natDigits 70 = ['7', '0'] := by decide
      have e9 : ("\n  </g>\n</svg>\n" : String).data =
          "\n  </g>".data ++ "\n</svg>\n".data := by decide
      have e10 : ("<g transform=\"translate(0,70)\">\n    " : String).data =
          "<g transform=\"translate(0,".data ++ ('7' :: '0' :: ")\">\n    ".data) := by decide
      simp only [e6, e7, e9, e10, List.cons_append, List.append_assoc, List.nil_append]
    · -- the title text is embedded
      refine ⟨"<svg xmlns=\"http://www.w3.org/2000/svg\" width=\"".data ++
        (natDigits ((searchNumAttr widthKeyL svg.data).getD 1500) ++
        ("\" height=\"".data ++
        (natDigits ((searchNumAttr heightKeyL svg.data).getD 1000 + 70) ++
        ("\" viewBox=\"0 0 ".data ++
        (natDigits ((searchNumAttr widthKeyL svg.data).getD 1500) ++
        (" ".data ++
        (natDigits ((searchNumAttr heightKeyL svg.data).getD 1000 + 70) ++
        ("\">\n  <text x=\"".data ++
        ((pyHalfStr ((searchNumAttr widthKeyL svg.data).getD 1500)).data ++
        ("\" y=\"".data ++
        ((pyMulStr65 70).data ++
         "\" text-anchor=\"middle\" font-size=\"28\" font-family=\"Arial\">".data))))))))))),
        "</text>\n  <g transform=\"translate(0,".data ++
        (natDigits 70 ++
        (")\">\n    ".data ++
        (stripDoctypeHdr (stripXmlHdr svg.data) ++ "\n  </g>\n</svg>\n".data))), ?_⟩
      rw [hdata0]
      simp only [List.cons_append, List.append_assoc, List.nil_append]

/-- C6 counterexample: a whitespace-only title is a non-empty title for
which the markup is returned unchanged — the declared height stays 150
instead of growing by the 70-unit margin. -/
theorem C6_cex_blank_title :
    _inject_svg_title "<svg width=\"300\" height=\"150\">abc</svg>" " " 70 =
      "<svg width=\"300\" height=\"150\">abc</svg>" ∧
    searchNumAttr heightKeyL
        (_inject_svg_title "<svg width=\"300\" height=\"150\">abc</svg>" " " 70).data =
      some 150 ∧
    ¬(150 = 150 + 70) :=
  ⟨rfl, by decide, by decide⟩

/-- Witness for C6 on a markup with parseable width and height. -/
theorem C6_title_injection_witness :
    pyStrip "T" ≠ "" ∧
    hasSubL "<svg".data ("<svg width=\"300\" height=\"150\">abc</svg>" : String).data = true ∧
    searchNumAttr heightKeyL
        (_inject_svg_title "<svg width=\"300\" height=\"150\">abc</svg>" "T" 70).data =
      some ((searchNumAttr heightKeyL
        ("<svg width=\"300\" height=\"150\">abc</svg>" : String).data).getD 1000 + 70) ∧
    (searchNumAttr heightKeyL
        ("<svg width=\"300\" height=\"150\">abc</svg>" : String).data).getD 1000 + 70 = 220 :=
  ⟨by decide, by decide,
   ((C6_title_injection "<svg width=\"300\" height=\"150\">abc</svg>" "T").2.2
      (by decide) (by decide)).1,
   by decide⟩

end MolPic
